import Mathlib

/-!
Shallow embedding of the notification-platform core (notification lifecycle
and quota-control engine) for checking the natural-language specification
against the source.

Layers modelled, following the Go sources:
* counter store adapter: internal/repository/cache/redis/quota.go and the
  embedded lua scripts (quota.lua, batch_decr_quota.lua, batch_incr_quota.lua);
* notification store adapter: the notification DAO (dao package);
* lifecycle engine: internal/repository/notification.go;
* domain strategy model: internal/domain/send_notification.go,
  internal/domain/notification.go;
* transactional protocol handlers: TxPrepare/TxCommit/TxCancel in
  internal/api/grpc/notification_server.go.

Conventions: machine integers (int32/int64/uint64) are modelled as Int/Nat —
no arithmetic in this code approaches overflow; Go time.Time values are Unix
timestamps as Int (the operations only compare and add them); external
failures of the relational store or of a redis Eval call are injected through
explicit boolean fault parameters; gorm transactions roll back wholesale on
error, so a failed multi-step DAO operation returns the original state.
Payload columns (receivers, template params) are carried as their source data
rather than their JSON serialization: the code never branches on the encoded
form, it only stores and re-reads it.
-/

namespace NotificationPlatform

/-- Error values mirroring internal/domain/err.go and the quota-cache errors.
`noQuota` is ErrQuotaLessThenZero from the redis adapter; `noQuotaKeyed`
is the MutiDecr failure naming the first insufficient key; `storage` stands
for any non-duplicate infrastructure error of the relational store;
`evalFailed` for a failed redis Eval round trip. -/
inductive Err where
  | noQuota
  | noQuotaKeyed (bizID : Int) (channel : String)
  | duplicate
  | versionMismatch
  | createCallbackLogFailed
  | notificationNotFound
  | invalidParameter
  | storage
  | evalFailed
  deriving Repr, DecidableEq

/-! ## Counter store adapter (quota cache)

Source: internal/repository/cache/redis/quota.go plus the lua scripts.
A redis counter key `quota:{bizID}:{channel}` addresses one integer; an
absent key reads as 0 (both DECRBY and the scripts' `GET ... or 0`). -/

/-- One counter address: the `(BizID, Channel)` pair behind the string key
`quota:{bizID}:{channel}` built by quotaCache.key. -/
structure QuotaKey where
  bizID : Int
  channel : String
  deriving Repr, DecidableEq

/-- Counter store state: every key holds an integer, absent keys read as 0. -/
def QuotaState : Type := QuotaKey → Int

/-- Pointwise update of one counter. -/
def QuotaState.set (q : QuotaState) (k : QuotaKey) (v : Int) : QuotaState :=
  fun k2 => if k2 = k then v else q k2

/-- One item of a batched quota operation (cache.IncrItem). -/
structure IncrItem where
  bizID : Int
  channel : String
  val : Int
  deriving Repr, DecidableEq

/-- Counter key of an item. -/
def IncrItem.key (it : IncrItem) : QuotaKey :=
  ⟨it.bizID, it.channel⟩

/-- quotaCache.Decr (quota.go lines 86-99): DECRBY always applies; a negative
result is reported as ErrQuotaLessThenZero, but the decrement is not rolled
back — the counter keeps the negative overshoot. -/
def Decr (q : QuotaState) (bizID : Int) (channel : String) (n : Int) :
    QuotaState × Option Err :=
  let k : QuotaKey := ⟨bizID, channel⟩
  let res := q k - n
  (q.set k res, if res < 0 then some Err.noQuota else none)

/-- The lua script quota.lua executed by quotaCache.Incr: a negative current
value is reset to the argument, zero or absent is set to the argument,
a positive value is increased by the argument. -/
def incrScript (q : QuotaState) (k : QuotaKey) (x : Int) : QuotaState :=
  let current := q k
  if current < 0 then q.set k x
  else if current > 0 then q.set k (current + x)
  else q.set k x

/-- quotaCache.Incr (quota.go lines 79-84): runs quota.lua on the single key. -/
def Incr (q : QuotaState) (bizID : Int) (channel : String) (x : Int) : QuotaState :=
  incrScript q ⟨bizID, channel⟩ x

/-- Check phase of lua/batch_decr_quota.lua: the first key whose current
value is below its required amount, if any.  All keys are read before any
write, so every check sees the original state. -/
def batchDecrCheck (q : QuotaState) (items : List IncrItem) : Option IncrItem :=
  items.find? (fun it => q it.key < it.val)

/-- Decrement phase of lua/batch_decr_quota.lua: DECRBY every key by its
amount, in order. -/
def batchDecrApply (q : QuotaState) (items : List IncrItem) : QuotaState :=
  items.foldl (fun acc it => acc.set it.key (acc it.key - it.val)) q

/-- lua/batch_decr_quota.lua: check every key first; on the first
insufficient key return it and decrement nothing, otherwise decrement all
keys and return the empty string. -/
def batchDecrScript (q : QuotaState) (items : List IncrItem) :
    QuotaState × Option IncrItem :=
  match batchDecrCheck q items with
  | some it => (q, some it)
  | none => (batchDecrApply q items, none)

/-- quotaCache.MutiDecr (quota.go lines 63-77): a nonempty script result is
turned into an error wrapping ErrQuotaLessThenZero that names the key. -/
def MutiDecr (q : QuotaState) (items : List IncrItem) : QuotaState × Option Err :=
  match batchDecrScript q items with
  | (q2, some it) => (q2, some (Err.noQuotaKeyed it.bizID it.channel))
  | (q2, none) => (q2, none)

/-- lua/batch_incr_quota.lua: for every key in order, a negative current
value is reset to the argument, otherwise the argument is added. -/
def batchIncrScript (q : QuotaState) (items : List IncrItem) : QuotaState :=
  items.foldl
    (fun acc it =>
      let current := acc it.key
      if current < 0 then acc.set it.key it.val
      else acc.set it.key (current + it.val))
    q

/-- quotaCache.MutiIncr (quota.go lines 37-47): empty item lists
short-circuit without a redis call. -/
def MutiIncr (q : QuotaState) (items : List IncrItem) : QuotaState :=
  if items.isEmpty then q else batchIncrScript q items

/-! ## Notification store adapter (DAO)

Source: the notification DAO (dao.Notification row, create/batchCreate,
CASStatus, UpdateStatus, BatchUpdateStatusSucceededOrFailed, MarkFailed,
GetByKey) and dao.CallbackLog. -/

/-- Status string constants of domain.SendStatus (notification.go). The row
column is a plain string, exactly as domain.SendStatus is a Go string type. -/
def sendStatusPrepare : String := "PREPARE"

/-- CANCELED status string. -/
def sendStatusCanceled : String := "CANCELED"

/-- PENDING status string. -/
def sendStatusPending : String := "PENDING"

/-- SENDING status string. -/
def sendStatusSending : String := "SENDING"

/-- SUCCEEDED status string. -/
def sendStatusSucceeded : String := "SUCCEEDED"

/-- FAILED status string. -/
def sendStatusFailed : String := "FAILED"

/-- A notification row (dao.Notification, table columns of part of the DAO).
`receivers` and `templateParams` are stored by the Go code as JSON strings;
the encoding is a bijection the code never inspects, so the row carries the
source data directly. -/
structure NotificationRow where
  id : Nat
  bizID : Int
  key : String
  receivers : List String
  channel : String
  templateID : Int
  templateVersionID : Int
  templateParams : List (String × String)
  status : String
  scheduledSTime : Int
  scheduledETime : Int
  version : Int
  ctime : Int
  utime : Int
  deriving Repr, DecidableEq

/-- A callback-log row (dao.CallbackLog). -/
structure CallbackLogRow where
  notificationID : Nat
  retryCount : Int
  nextRetryTime : Int
  status : String
  ctime : Int
  utime : Int
  deriving Repr, DecidableEq

/-- Relational store state: the notifications table and the callback_logs
table. -/
structure Store where
  notifications : List NotificationRow
  callbackLogs : List CallbackLogRow
  deriving Repr, DecidableEq

/-- Injected infrastructure outcomes for one DAO create call: `insertFault`
is a non-duplicate storage failure of the notification insert, `cbFault` a
failure of the companion callback-log insert.  Either one rolls back the
surrounding gorm transaction. -/
structure DBFault where
  insertFault : Bool
  cbFault : Bool
  deriving Repr, DecidableEq

/-- No injected store failure. -/
def DBFault.none : DBFault := ⟨false, false⟩

/-- Whether inserting `data` violates the primary key (`id`) or the
`(biz_id, key)` unique index against the existing rows — the condition under
which MySQL raises error 1062, which isUniqueConstraintError classifies as
domain.ErrNotificationDuplicate. -/
def uniqueViolation (rows : List NotificationRow) (data : NotificationRow) : Bool :=
  rows.any (fun r => r.id = data.id || (r.bizID = data.bizID && r.key = data.key))

/-- notificationDAO.create: stamp ctime/utime with now and force Version to 1,
then inside one transaction insert the row (a unique-index collision is
reported as duplicate) and, when requested, the companion callback-log row
with status INIT.  Any failure rolls the whole transaction back. -/
def daoCreate (now : Int) (st : Store) (data : NotificationRow)
    (createCallbackLog : Bool) (fault : DBFault) :
    Except Err (Store × NotificationRow) :=
  let data2 := { data with ctime := now, utime := now, version := 1 }
  if uniqueViolation st.notifications data2 then Except.error Err.duplicate
  else if fault.insertFault then Except.error Err.storage
  else if createCallbackLog && fault.cbFault then
    Except.error Err.createCallbackLogFailed
  else
    let st2 := { st with notifications := st.notifications ++ [data2] }
    if createCallbackLog then
      Except.ok
        ({ st2 with
            callbackLogs := st2.callbackLogs ++
              [{ notificationID := data2.id, retryCount := 0,
                 nextRetryTime := now, status := "INIT", ctime := 0, utime := 0 }] },
          data2)
    else Except.ok (st2, data2)

/-- Unique-index violation anywhere in a batch insert: some row collides with
the existing rows or with an earlier row of the same batch. -/
def batchUniqueViolation : List NotificationRow → List NotificationRow → Bool
  | _, [] => false
  | rows, d :: ds => uniqueViolation rows d || batchUniqueViolation (rows ++ [d]) ds

/-- notificationDAO.batchCreate: empty input returns an empty slice with no
transaction; otherwise stamp every row (Version 1) and insert all rows — and,
when requested, their callback-log rows (whose status column takes the table
default INIT) — inside one transaction.  The CreateInBatches chunking (size
100) is invisible to callers because the whole transaction commits or rolls
back as a unit. -/
def daoBatchCreate (now : Int) (st : Store) (datas : List NotificationRow)
    (createCallbackLog : Bool) (fault : DBFault) :
    Except Err (Store × List NotificationRow) :=
  if datas.isEmpty then Except.ok (st, [])
  else
    let datas2 := datas.map (fun d => { d with ctime := now, utime := now, version := 1 })
    if batchUniqueViolation st.notifications datas2 then Except.error Err.duplicate
    else if fault.insertFault then Except.error Err.storage
    else if createCallbackLog && fault.cbFault then
      Except.error Err.createCallbackLogFailed
    else
      let st2 := { st with notifications := st.notifications ++ datas2 }
      if createCallbackLog then
        Except.ok
          ({ st2 with
              callbackLogs := st2.callbackLogs ++
                datas2.map (fun d =>
                  { notificationID := d.id, retryCount := 0, nextRetryTime := now,
                    status := "INIT", ctime := now, utime := now }) },
            datas2)
      else Except.ok (st2, datas2)

/-- notificationDAO.CASStatus: update status, version+1 and utime on the rows
matching `id = ? AND version = ?`; zero rows affected is reported as
domain.ErrNotificationVersionMismatch. -/
def casStatus (now : Int) (st : Store) (n : NotificationRow) : Except Err Store :=
  let affected :=
    (st.notifications.filter (fun r => r.id = n.id && r.version = n.version)).length
  let rows := st.notifications.map (fun r =>
    if r.id = n.id && r.version = n.version then
      { r with status := n.status, version := r.version + 1, utime := now }
    else r)
  if affected < 1 then Except.error Err.versionMismatch
  else Except.ok { st with notifications := rows }

/-- notificationDAO.UpdateStatus: unconditional status update on `id = ?`,
still incrementing version. -/
def updateStatus (now : Int) (st : Store) (n : NotificationRow) : Store :=
  { st with
      notifications := st.notifications.map (fun r =>
        if r.id = n.id then
          { r with status := n.status, version := r.version + 1, utime := now }
        else r) }

/-- notificationDAO.MarkFailed: unconditional update of the row to the given
status (the repository passes FAILED), version+1. -/
def daoMarkFailed (now : Int) (st : Store) (n : NotificationRow) : Store :=
  updateStatus now st n

/-- Success half of notificationDAO.BatchUpdateStatusSucceededOrFailed:
mark the ids SUCCEEDED with version+1 and flip their callback-log rows to
PENDING. -/
def batchMarkSuccess (now : Int) (st : Store) (successIDs : List Nat) : Store :=
  { notifications := st.notifications.map (fun r =>
      if successIDs.contains r.id then
        { r with version := r.version + 1, utime := now, status := sendStatusSucceeded }
      else r),
    callbackLogs := st.callbackLogs.map (fun c =>
      if successIDs.contains c.notificationID then
        { c with status := "PENDING", utime := now }
      else c) }

/-- notificationDAO.BatchUpdateStatusSucceededOrFailed: both lists empty is a
no-op; otherwise one transaction marks the success ids SUCCEEDED (callback
logs to PENDING) and the failed ids FAILED, each with version+1.  An injected
store fault rolls the transaction back. -/
def daoBatchUpdateStatusSucceededOrFailed (now : Int) (st : Store)
    (succ failed : List NotificationRow) (fault : Bool) : Except Err Store :=
  if succ.isEmpty && failed.isEmpty then Except.ok st
  else if fault then Except.error Err.storage
  else
    let successIDs := succ.map (fun r => r.id)
    let failedIDs := failed.map (fun r => r.id)
    let st2 := if successIDs.isEmpty then st else batchMarkSuccess now st successIDs
    let st3 :=
      if failedIDs.isEmpty then st2
      else
        { st2 with
            notifications := st2.notifications.map (fun r =>
              if failedIDs.contains r.id then
                { r with version := r.version + 1, utime := now, status := sendStatusFailed }
              else r) }
    Except.ok st3

/-- notificationDAO.GetByKey: first row matching `biz_id = ? AND key = ?`;
gorm.ErrRecordNotFound is wrapped into an error. -/
def daoGetByKey (st : Store) (bizID : Int) (key : String) :
    Except Err NotificationRow :=
  match st.notifications.find? (fun r => r.bizID = bizID && r.key = key) with
  | some r => Except.ok r
  | none => Except.error Err.notificationNotFound

/-! ## Domain entity and send-strategy model

Source: internal/domain/send_notification.go, internal/domain/notification.go,
internal/domain/provider.go.  Go calls time.Now() inside SendTimeWindow and
Validate; the embedding passes that instant as an explicit `now` argument.
All instants are Unix milliseconds. -/

/-- Send-strategy type strings (domain.SendStrategyType). -/
def strategyImmediate : String := "IMMEDIATE"

/-- DELAYED strategy type string. -/
def strategyDelayed : String := "DELAYED"

/-- SCHEDULED strategy type string. -/
def strategyScheduled : String := "SCHEDULED"

/-- TIME_WINDOW strategy type string. -/
def strategyTimeWindow : String := "TIME_WINDOW"

/-- DEADLINE strategy type string. -/
def strategyDeadline : String := "DEADLINE"

/-- The Unix-millisecond instant of Go's zero time.Time (January 1, year 1
UTC): t.IsZero() holds exactly for this value. -/
def goZeroTime : Int := -62135596800000

/-- Thirty minutes in milliseconds (defaultEndDuration of SendTimeWindow). -/
def defaultEndDuration : Int := 30 * 60 * 1000

/-- Three seconds in milliseconds (scheduledTimeTolerance of SendTimeWindow). -/
def scheduledTimeTolerance : Int := 3 * 1000

/-- domain.SendStrategyConfig.  `delay` is a duration in milliseconds. -/
structure SendStrategyConfig where
  type : String
  delay : Int
  scheduledTime : Int
  startTime : Int
  endTime : Int
  deadlineTime : Int
  deriving Repr, DecidableEq

/-- SendStrategyConfig.SendTimeWindow (send_notification.go lines 30-53),
with `now` the time.Now() instant: the earliest and latest send times per
strategy; an unknown type falls through to `[now, now]`. -/
def SendTimeWindow (now : Int) (e : SendStrategyConfig) : Int × Int :=
  if e.type = strategyImmediate then (now, now + defaultEndDuration)
  else if e.type = strategyDelayed then (now, now + e.delay)
  else if e.type = strategyDeadline then (now, e.deadlineTime)
  else if e.type = strategyTimeWindow then (e.startTime, e.endTime)
  else if e.type = strategyScheduled then
    (e.scheduledTime - scheduledTimeTolerance, e.scheduledTime)
  else (now, now)

/-- SendStrategyConfig.Validate (send_notification.go lines 55-78): DELAYED
needs a positive delay; SCHEDULED and DEADLINE reject a zero time and a time
before now (t.IsZero() || t.Before(now)); TIME_WINDOW rejects a zero start
and a start after the end; IMMEDIATE and unknown types pass. -/
def strategyValidate (now : Int) (e : SendStrategyConfig) : Option Err :=
  if e.type = strategyImmediate then none
  else if e.type = strategyDelayed then
    if e.delay ≤ 0 then some Err.invalidParameter else none
  else if e.type = strategyScheduled then
    if e.scheduledTime = goZeroTime || e.scheduledTime < now then
      some Err.invalidParameter
    else none
  else if e.type = strategyTimeWindow then
    if e.startTime = goZeroTime || e.startTime > e.endTime then
      some Err.invalidParameter
    else none
  else if e.type = strategyDeadline then
    if e.deadlineTime = goZeroTime || e.deadlineTime < now then
      some Err.invalidParameter
    else none
  else none

/-- domain.Template. -/
structure Template where
  id : Int
  versionID : Int
  params : List (String × String)
  deriving Repr, DecidableEq

/-- domain.Notification. -/
structure Notification where
  id : Nat
  bizID : Int
  key : String
  receivers : List String
  channel : String
  template : Template
  status : String
  scheduledSTime : Int
  scheduledETime : Int
  version : Int
  sendStrategyConfig : SendStrategyConfig
  deriving Repr, DecidableEq

/-- domain.Channel.IsValid (provider.go). -/
def channelIsValid (c : String) : Bool :=
  c = "SMS" || c = "EMAIL" || c = "IN_APP"

/-- domain.Notification.Validate (notification.go lines 68-102): field checks
in source order, then the strategy validation. -/
def notifValidate (now : Int) (n : Notification) : Option Err :=
  if n.bizID ≤ 0 then some Err.invalidParameter
  else if n.key = "" then some Err.invalidParameter
  else if n.receivers.isEmpty then some Err.invalidParameter
  else if !channelIsValid n.channel then some Err.invalidParameter
  else if n.template.id ≤ 0 then some Err.invalidParameter
  else if n.template.versionID ≤ 0 then some Err.invalidParameter
  else if n.template.params.isEmpty then some Err.invalidParameter
  else strategyValidate now n.sendStrategyConfig

/-- domain.Notification.SetSendTime: store the strategy window computed at
`now` into the scheduled send window fields. -/
def setSendTime (now : Int) (n : Notification) : Notification :=
  let w := SendTimeWindow now n.sendStrategyConfig
  { n with scheduledSTime := w.1, scheduledETime := w.2 }

/-! ## Notification lifecycle engine (repository)

Source: internal/repository/notification.go.  The engine owns a quota state
and a store state. -/

/-- Combined state the repository orchestrates: the counter store and the
relational store. -/
structure RepoState where
  quota : QuotaState
  store : Store

/-- notificationRepository defaultQuotaNumber: every notification consumes
exactly one quota unit. -/
def defaultQuotaNumber : Int := 1

/-- notificationRepository.toEntity: domain object to DAO row (ctime/utime
are zero values, overwritten by the DAO). -/
def toEntity (n : Notification) : NotificationRow :=
  { id := n.id, bizID := n.bizID, key := n.key, receivers := n.receivers,
    channel := n.channel, templateID := n.template.id,
    templateVersionID := n.template.versionID,
    templateParams := n.template.params, status := n.status,
    scheduledSTime := n.scheduledSTime, scheduledETime := n.scheduledETime,
    version := n.version, ctime := 0, utime := 0 }

/-- notificationRepository.toDomain: DAO row back to the domain object (the
strategy config is not persisted, so it comes back as the zero value). -/
def toDomain (r : NotificationRow) : Notification :=
  { id := r.id, bizID := r.bizID, key := r.key, receivers := r.receivers,
    channel := r.channel,
    template := { id := r.templateID, versionID := r.templateVersionID,
                  params := r.templateParams },
    status := r.status, scheduledSTime := r.scheduledSTime,
    scheduledETime := r.scheduledETime, version := r.version,
    sendStrategyConfig := ⟨"", 0, 0, 0, 0, 0⟩ }

/-- Common body of notificationRepository.Create and CreateWithCallbackLog
(notification.go lines 70-89 and 138-156): decrement quota by one; on
failure return the error with no persistence action; otherwise persist, and
on persistence failure refund the unit (a refund failure — `incrFault` —
is logged and swallowed) and return the original error. -/
def repoCreate (now : Int) (st : RepoState) (n : Notification)
    (withCallbackLog : Bool) (fault : DBFault) (incrFault : Bool) :
    RepoState × Except Err Notification :=
  match Decr st.quota n.bizID n.channel defaultQuotaNumber with
  | (q1, some e) => ({ st with quota := q1 }, Except.error e)
  | (q1, none) =>
    match daoCreate now st.store (toEntity n) withCallbackLog fault with
    | Except.error e =>
      let q2 := if incrFault then q1 else Incr q1 n.bizID n.channel defaultQuotaNumber
      ({ quota := q2, store := st.store }, Except.error e)
    | Except.ok (store2, row) => ({ quota := q1, store := store2 }, Except.ok (toDomain row))

/-- notificationRepository.Create. -/
def repoCreateSingle (now : Int) (st : RepoState) (n : Notification)
    (fault : DBFault) (incrFault : Bool) : RepoState × Except Err Notification :=
  repoCreate now st n false fault incrFault

/-- notificationRepository.CreateWithCallbackLog. -/
def repoCreateWithCallbackLog (now : Int) (st : RepoState) (n : Notification)
    (fault : DBFault) (incrFault : Bool) : RepoState × Except Err Notification :=
  repoCreate now st n true fault incrFault

/-- One step of notificationRepository.getItems: bump the item of this
`(BizID, Channel)` pair by one, or append a fresh item. -/
def addItem (items : List IncrItem) (bizID : Int) (channel : String) :
    List IncrItem :=
  match items with
  | [] => [⟨bizID, channel, 1⟩]
  | it :: rest =>
    if it.bizID = bizID && it.channel = channel then
      { it with val := it.val + 1 } :: rest
    else it :: addItem rest bizID channel

/-- notificationRepository.getItems: aggregate a notification list into one
IncrItem per distinct `(BizID, Channel)` pair, counting notifications.  The
Go code accumulates in a map whose iteration order is unspecified; the
embedding fixes first-appearance order, which no modelled property depends
on (the items' keys are pairwise distinct either way). -/
def getItems (ns : List Notification) : List IncrItem :=
  ns.foldl (fun acc n => addItem acc n.bizID n.channel) []

/-- notificationRepository.batchCreate (notification.go lines 163-204):
empty input returns immediately; otherwise MutiDecr the aggregated items
(all-or-nothing), then batch-insert; on insert failure MutiIncr the same
items back (a refund failure — `mutiIncrFault` — is logged and swallowed)
and return the original error. -/
def repoBatchCreate (now : Int) (st : RepoState) (ns : List Notification)
    (withCallbackLog : Bool) (fault : DBFault) (mutiIncrFault : Bool) :
    RepoState × Except Err (List Notification) :=
  if ns.isEmpty then (st, Except.ok [])
  else
    match MutiDecr st.quota (getItems ns) with
    | (q1, some e) => ({ st with quota := q1 }, Except.error e)
    | (q1, none) =>
      match daoBatchCreate now st.store (ns.map toEntity) withCallbackLog fault with
      | Except.error e =>
        let q2 := if mutiIncrFault then q1 else MutiIncr q1 (getItems ns)
        ({ quota := q2, store := st.store }, Except.error e)
      | Except.ok (store2, rows) =>
        ({ quota := q1, store := store2 }, Except.ok (rows.map toDomain))

/-- notificationRepository.MarkFailed (notification.go lines 331-337): mark
the row FAILED through the DAO, then refund one quota unit.  Note the Go
code returns the refund call's error to the caller — it is not logged and
swallowed like the other compensation paths. -/
def repoMarkFailed (now : Int) (st : RepoState) (n : Notification)
    (daoFault : Bool) (incrFault : Bool) : RepoState × Option Err :=
  if daoFault then (st, some Err.storage)
  else
    let store2 := daoMarkFailed now st.store (toEntity n)
    if incrFault then ({ st with store := store2 }, some Err.evalFailed)
    else
      ({ quota := Incr st.quota n.bizID n.channel defaultQuotaNumber,
         store := store2 }, none)

/-- notificationRepository.BatchUpdateStatusSucceededOrFailed (notification.go
lines 292-316): run the DAO batch update; on success MutiIncr the failed
subset's quota back, logging and swallowing any refund failure
(`mutiIncrFault`). -/
def repoBatchUpdateStatusSucceededOrFailed (now : Int) (st : RepoState)
    (succ failed : List Notification) (daoFault : Bool) (mutiIncrFault : Bool) :
    RepoState × Option Err :=
  match daoBatchUpdateStatusSucceededOrFailed now st.store
      (succ.map toEntity) (failed.map toEntity) daoFault with
  | Except.error e => (st, some e)
  | Except.ok store2 =>
    let items := getItems failed
    if mutiIncrFault then ({ st with store := store2 }, none)
    else ({ quota := MutiIncr st.quota items, store := store2 }, none)

/-- notificationRepository.CASStatus: thin pass-through to the DAO. -/
def repoCASStatus (now : Int) (st : RepoState) (n : Notification) :
    RepoState × Option Err :=
  match casStatus now st.store (toEntity n) with
  | Except.error e => (st, some e)
  | Except.ok store2 => ({ st with store := store2 }, none)

/-- notificationRepository.UpdateStatus: thin pass-through to the DAO. -/
def repoUpdateStatus (now : Int) (st : RepoState) (n : Notification) : RepoState :=
  { st with store := updateStatus now st.store (toEntity n) }

/-- notificationRepository.GetByKey: DAO lookup converted to the domain
object. -/
def repoGetByKey (st : RepoState) (bizID : Int) (key : String) :
    Except Err Notification :=
  match daoGetByKey st.store bizID key with
  | Except.ok r => Except.ok (toDomain r)
  | Except.error e => Except.error e

/-! ## Transactional protocol handlers (prepare / commit / cancel)

Source: NotificationServer.TxPrepare/TxCommit/TxCancel in
internal/api/grpc/notification_server.go. -/

/-- gRPC status codes the handlers return. -/
inductive GrpcErr where
  | invalidArgument
  | notFound
  | failedPrecondition
  | internalErr
  deriving Repr, DecidableEq

/-- NotificationServer.TxPrepare (notification_server.go lines 288-322):
validate the notification — a failure returns InvalidArgument before any
quota or persistence action — then set status PREPARE, compute the send
window at `now`, and create through the repository (without callback log);
a create failure maps to an Internal error. -/
def txPrepare (now : Int) (st : RepoState) (n : Notification)
    (fault : DBFault) (incrFault : Bool) : RepoState × Option GrpcErr :=
  match notifValidate now n with
  | some _ => (st, some GrpcErr.invalidArgument)
  | none =>
    let n2 := setSendTime now { n with status := sendStatusPrepare }
    match repoCreate now st n2 false fault incrFault with
    | (st2, Except.error _) => (st2, some GrpcErr.internalErr)
    | (st2, Except.ok _) => (st2, none)

/-- NotificationServer.TxCommit (notification_server.go lines 325-369):
reject an empty key or missing bizID; look the notification up by
`(BizID, Key)`; a status other than PREPARE is a FailedPrecondition and the
state is untouched; otherwise flip it to PENDING via the unconditional
UpdateStatus. -/
def txCommit (now : Int) (st : RepoState) (bizID : Int) (key : String) :
    RepoState × Option GrpcErr :=
  if key = "" then (st, some GrpcErr.invalidArgument)
  else if bizID = 0 then (st, some GrpcErr.invalidArgument)
  else
    match repoGetByKey st bizID key with
    | Except.error _ => (st, some GrpcErr.notFound)
    | Except.ok n =>
      if n.status ≠ sendStatusPrepare then (st, some GrpcErr.failedPrecondition)
      else (repoUpdateStatus now st { n with status := sendStatusPending }, none)

/-- NotificationServer.TxCancel (notification_server.go lines 372-414): same
precondition check as TxCommit, transitioning PREPARE to CANCELED. -/
def txCancel (now : Int) (st : RepoState) (bizID : Int) (key : String) :
    RepoState × Option GrpcErr :=
  if key = "" then (st, some GrpcErr.invalidArgument)
  else if bizID = 0 then (st, some GrpcErr.invalidArgument)
  else
    match repoGetByKey st bizID key with
    | Except.error _ => (st, some GrpcErr.notFound)
    | Except.ok n =>
      if n.status ≠ sendStatusPrepare then (st, some GrpcErr.failedPrecondition)
      else (repoUpdateStatus now st { n with status := sendStatusCanceled }, none)

/-- Claim C7's validation predicate written from the spec's words, for the
refinement comparison with the code's strategyValidate: a strategy is
malformed iff DELAYED has delay not > 0, SCHEDULED or DEADLINE has a time
not strictly in the future at validation time, or TIME_WINDOW has start not
≤ end. -/
def claimedMalformed (now : Int) (e : SendStrategyConfig) : Bool :=
  (e.type = strategyDelayed && !(e.delay > 0)) ||
  (e.type = strategyScheduled && !(e.scheduledTime > now)) ||
  (e.type = strategyTimeWindow && !(e.startTime ≤ e.endTime)) ||
  (e.type = strategyDeadline && !(e.deadlineTime > now))

/-- Sample notification used by the concrete witnesses below. -/
def nSample : Notification :=
  { id := 10, bizID := 1, key := "k1", receivers := ["13800000000"],
    channel := "SMS",
    template := { id := 2, versionID := 3, params := [("code", "1234")] },
    status := sendStatusPending, scheduledSTime := 0, scheduledETime := 0,
    version := 0, sendStrategyConfig := ⟨strategyImmediate, 0, 0, 0, 0, 0⟩ }

/-- Sample counter state: every counter at 3. -/
def qSample : QuotaState := fun _ => 3

/-- Sample repository state: counters at 3, empty store. -/
def stSample : RepoState := ⟨qSample, ⟨[], []⟩⟩

/-- Sample repository state with exhausted counters. -/
def stPoor : RepoState := ⟨fun _ => 0, ⟨[], []⟩⟩

/-! ## Helper lemmas -/

theorem QuotaState.set_same (q : QuotaState) (k : QuotaKey) (v : Int) :
    q.set k v k = v := by
  simp [QuotaState.set]

theorem QuotaState.set_other (q : QuotaState) (k k2 : QuotaKey) (v : Int)
    (h : k2 ≠ k) : q.set k v k2 = q k2 := by
  simp [QuotaState.set, h]

theorem batchDecrApply_nil (q : QuotaState) : batchDecrApply q [] = q := rfl

theorem batchDecrApply_cons (q : QuotaState) (x : IncrItem) (rest : List IncrItem) :
    batchDecrApply q (x :: rest) =
      batchDecrApply (q.set x.key (q x.key - x.val)) rest := rfl

theorem batchDecrApply_not_mem (items : List IncrItem) (q : QuotaState) (k : QuotaKey)
    (h : ∀ it ∈ items, it.key ≠ k) : batchDecrApply q items k = q k := by
  induction items generalizing q with
  | nil => rfl
  | cons x rest ih =>
    rw [batchDecrApply_cons,
      ih _ (fun it hit => h it (List.mem_cons_of_mem _ hit))]
    exact QuotaState.set_other q x.key k _
      (fun hk => h x (List.mem_cons_self _ _) hk.symm)

theorem batchDecrApply_mem (items : List IncrItem) (q : QuotaState) (it : IncrItem)
    (hd : items.Pairwise (fun a b => a.key ≠ b.key)) (hm : it ∈ items) :
    batchDecrApply q items it.key = q it.key - it.val := by
  induction items generalizing q with
  | nil => cases hm
  | cons x rest ih =>
    rw [batchDecrApply_cons]
    rcases List.mem_cons.mp hm with h1 | h1
    · subst h1
      rw [batchDecrApply_not_mem rest _ _
        (fun it2 hit2 => fun hk => (List.pairwise_cons.mp hd).1 it2 hit2 hk.symm)]
      exact QuotaState.set_same q it.key _
    · rw [ih _ ((List.pairwise_cons.mp hd).2) h1]
      congr 1
      exact QuotaState.set_other q x.key it.key _
        (fun hk => (List.pairwise_cons.mp hd).1 it h1 hk.symm)

theorem find?_first {α : Type} {p : α → Bool} {l : List α} {b : α}
    (h : l.find? p = some b) :
    p b = true ∧ ∃ pre post, l = pre ++ b :: post ∧ ∀ a ∈ pre, p a = false := by
  induction l with
  | nil => cases h
  | cons x rest ih =>
    by_cases hx : p x = true
    · rw [List.find?_cons_of_pos _ hx] at h
      cases h
      exact ⟨hx, [], rest, rfl, by intro a ha; cases ha⟩
    · have hx2 : p x = false := by
        cases hpx : p x
        · rfl
        · exact absurd hpx hx
      rw [List.find?_cons_of_neg _ (by simp [hx2])] at h
      obtain ⟨hb, pre, post, hl, hpre⟩ := ih h
      refine ⟨hb, x :: pre, post, by rw [hl]; rfl, ?_⟩
      intro a ha
      rcases List.mem_cons.mp ha with rfl | ha2
      · exact hx2
      · exact hpre a ha2

/-! ## Claims -/

/-- C10: BatchCreate and BatchCreateWithCallbackLog called with an empty
notification list return an empty result and no error, performing no quota
operation and no store write: the repository returns its state unchanged,
and the DAO level likewise returns its store unchanged. -/
theorem batchCreate_empty_noop (now : Int) (st : RepoState) (w : Bool)
    (fault : DBFault) (mf : Bool) :
    repoBatchCreate now st [] w fault mf = (st, Except.ok []) ∧
    daoBatchCreate now st.store [] w fault = Except.ok (st.store, []) :=
  ⟨rfl, rfl⟩

/-- C9: Decr(bizID, channel, n) decrements the counter by n unconditionally
(other counters untouched); a negative result yields the quota-exhausted
error while the counter keeps the negative overshoot; a non-negative result
succeeds. -/
theorem decr_overshoot (q : QuotaState) (bizID : Int) (channel : String) (n : Int) :
    ((Decr q bizID channel n).1 ⟨bizID, channel⟩ = q ⟨bizID, channel⟩ - n) ∧
    (∀ k2, k2 ≠ (⟨bizID, channel⟩ : QuotaKey) →
      (Decr q bizID channel n).1 k2 = q k2) ∧
    (q ⟨bizID, channel⟩ - n < 0 →
      (Decr q bizID channel n).2 = some Err.noQuota) ∧
    (0 ≤ q ⟨bizID, channel⟩ - n → (Decr q bizID channel n).2 = none) := by
  refine ⟨QuotaState.set_same _ _ _, fun k2 hk => QuotaState.set_other _ _ _ _ hk, ?_, ?_⟩
  · intro h
    simp [Decr, h]
  · intro h
    simp [Decr]
    omega

/-- Closed witness for decr_overshoot: a counter at 1 decremented by 2 keeps
the overshoot value -1 and reports quota exhaustion. -/
theorem decr_overshoot_witness :
    (Decr (fun _ => (1 : Int)) 7 "SMS" 2).1 ⟨7, "SMS"⟩ = -1 ∧
    (Decr (fun _ => (1 : Int)) 7 "SMS" 2).2 = some Err.noQuota := by
  have h := decr_overshoot (fun _ => (1 : Int)) 7 "SMS" 2
  exact ⟨h.1.trans (by norm_num), h.2.2.1 (by norm_num)⟩

/-- C2: MutiDecr is all-or-nothing: every key is checked against its required
amount first; if some key's current value is below its amount, no counter is
changed (the state returned is exactly the input state) and the first
insufficient key — in item order, all keys before it being sufficient — is
reported; otherwise the call succeeds and every key is decremented by its
amount, keys outside the batch being untouched. -/
theorem mutiDecr_all_or_nothing (q : QuotaState) (items : List IncrItem) :
    ((∃ bad ∈ items, q bad.key < bad.val) →
      ∃ it pre post, items = pre ++ it :: post ∧ q it.key < it.val ∧
        (∀ it2 ∈ pre, it2.val ≤ q it2.key) ∧
        MutiDecr q items = (q, some (Err.noQuotaKeyed it.bizID it.channel))) ∧
    ((∀ it ∈ items, it.val ≤ q it.key) →
      (MutiDecr q items).2 = none ∧
      (∀ k, (∀ it ∈ items, it.key ≠ k) → (MutiDecr q items).1 k = q k) ∧
      (items.Pairwise (fun a b => a.key ≠ b.key) →
        ∀ it ∈ items, (MutiDecr q items).1 it.key = q it.key - it.val)) := by
  constructor
  · intro hbad
    have hsome : (items.find? (fun it => q it.key < it.val)).isSome := by
      rw [List.find?_isSome]
      obtain ⟨bad, hmem, hlt⟩ := hbad
      exact ⟨bad, hmem, by simpa using hlt⟩
    obtain ⟨it, hit⟩ := Option.isSome_iff_exists.mp hsome
    obtain ⟨hp, pre, post, hsplit, hpre⟩ := find?_first hit
    refine ⟨it, pre, post, hsplit, by simpa using hp, ?_, ?_⟩
    · intro it2 h2
      have := hpre it2 h2
      simp only [decide_eq_false_iff_not, not_lt] at this
      exact this
    · simp [MutiDecr, batchDecrScript, batchDecrCheck, hit]
  · intro hok
    have hnone : items.find? (fun it => q it.key < it.val) = none := by
      rw [List.find?_eq_none]
      intro it hmem
      simp only [decide_eq_true_eq, not_lt]
      exact hok it hmem
    have heq : MutiDecr q items = (batchDecrApply q items, none) := by
      simp [MutiDecr, batchDecrScript, batchDecrCheck, hnone]
    refine ⟨by rw [heq], ?_, ?_⟩
    · intro k hk
      rw [heq]
      exact batchDecrApply_not_mem items q k hk
    · intro hd it hmem
      rw [heq]
      exact batchDecrApply_mem items q it hd hmem

/-- Closed witness for mutiDecr_all_or_nothing exercising both branches: with
counters at 5 and 0, a batch needing 3 and 1 fails on the second key and
changes nothing, while a batch needing 3 and 0 succeeds and decrements each
key by its amount. -/
theorem mutiDecr_all_or_nothing_witness :
    (MutiDecr
        (fun k => if k = ⟨1, "SMS"⟩ then (5 : Int) else 0)
        [⟨1, "SMS", 3⟩, ⟨2, "EMAIL", 1⟩]) =
      ((fun k => if k = ⟨1, "SMS"⟩ then (5 : Int) else 0),
        some (Err.noQuotaKeyed 2 "EMAIL")) ∧
    (MutiDecr
        (fun k => if k = ⟨1, "SMS"⟩ then (5 : Int) else 0)
        [⟨1, "SMS", 3⟩, ⟨2, "EMAIL", 0⟩]).1 ⟨1, "SMS"⟩ = 2 := by
  constructor
  · have h := (mutiDecr_all_or_nothing
      (fun k => if k = ⟨1, "SMS"⟩ then (5 : Int) else 0)
      [⟨1, "SMS", 3⟩, ⟨2, "EMAIL", 1⟩]).1
      ⟨⟨2, "EMAIL", 1⟩, by simp, by simp [IncrItem.key]⟩
    obtain ⟨it, pre, post, hsplit, hlt, hpre, hres⟩ := h
    have hitval : it = ⟨2, "EMAIL", 1⟩ := by
      have hmem : it ∈ [(⟨1, "SMS", 3⟩ : IncrItem), ⟨2, "EMAIL", 1⟩] := by
        rw [hsplit]
        exact List.mem_append_right _ (List.mem_cons_self _ _)
      rcases List.mem_cons.mp hmem with h1 | h1
      · exfalso
        rw [h1] at hlt
        simp [IncrItem.key] at hlt
      · simpa using h1
    rw [hitval] at hres
    exact hres
  · have h := (mutiDecr_all_or_nothing
      (fun k => if k = ⟨1, "SMS"⟩ then (5 : Int) else 0)
      [⟨1, "SMS", 3⟩, ⟨2, "EMAIL", 0⟩]).2
      (by
        intro it hmem
        rcases List.mem_cons.mp hmem with h1 | h1
        · rw [h1]; simp [IncrItem.key]
        · have : it = ⟨2, "EMAIL", 0⟩ := by simpa using h1
          rw [this]; simp [IncrItem.key])
    have h3 := h.2.2 (by
      constructor
      · intro b hb
        have : b = ⟨2, "EMAIL", 0⟩ := by simpa using hb
        rw [this]
        simp [IncrItem.key]
      · simp)
      ⟨1, "SMS", 3⟩ (List.mem_cons_self _ _)
    simpa [IncrItem.key] using h3

theorem decr_ok (q : QuotaState) (b : Int) (c : String) (h : 1 ≤ q ⟨b, c⟩) :
    Decr q b c defaultQuotaNumber = (q.set ⟨b, c⟩ (q ⟨b, c⟩ - 1), none) := by
  simp only [Decr, defaultQuotaNumber]
  rw [if_neg (by omega)]

theorem decr_exhausted (q : QuotaState) (b : Int) (c : String) (h : q ⟨b, c⟩ < 1) :
    Decr q b c defaultQuotaNumber =
      (q.set ⟨b, c⟩ (q ⟨b, c⟩ - 1), some Err.noQuota) := by
  simp only [Decr, defaultQuotaNumber]
  rw [if_pos (by omega)]

theorem incr_after_decr (q : QuotaState) (k : QuotaKey) (h : 1 ≤ q k)
    (k2 : QuotaKey) : incrScript (q.set k (q k - 1)) k 1 k2 = q k2 := by
  have hk : (q.set k (q k - 1)) k = q k - 1 := QuotaState.set_same _ _ _
  by_cases h2 : k2 = k
  · subst h2
    simp only [incrScript, hk]
    by_cases h3 : q k2 - 1 > 0
    · rw [if_neg (by omega), if_pos h3, QuotaState.set_same]
      omega
    · rw [if_neg (by omega), if_neg h3, QuotaState.set_same]
      omega
  · simp only [incrScript, hk]
    by_cases h3 : q k - 1 > 0
    · rw [if_neg (by omega), if_pos h3,
        QuotaState.set_other _ _ _ _ h2, QuotaState.set_other _ _ _ _ h2]
    · rw [if_neg (by omega), if_neg h3,
        QuotaState.set_other _ _ _ _ h2, QuotaState.set_other _ _ _ _ h2]

/-- C1: Create and CreateWithCallbackLog first decrement the (BizID, Channel)
counter by exactly 1; a failed decrement returns the error with no
persistence action; a successful decrement followed by a persistence failure
refunds the unit (the counter ends where it started, every key) and returns
the original persistence error; on success the persisted notification is
returned with Version = 1 and the net quota effect is exactly -1 on the one
key. -/
theorem create_quota_saga (now : Int) (st : RepoState) (n : Notification)
    (w : Bool) (fault : DBFault) :
    (st.quota ⟨n.bizID, n.channel⟩ < 1 →
      ∀ incrFault,
        (repoCreate now st n w fault incrFault).2 = Except.error Err.noQuota ∧
        (repoCreate now st n w fault incrFault).1.store = st.store ∧
        (repoCreate now st n w fault incrFault).1.quota ⟨n.bizID, n.channel⟩ =
          st.quota ⟨n.bizID, n.channel⟩ - 1 ∧
        (∀ k, k ≠ (⟨n.bizID, n.channel⟩ : QuotaKey) →
          (repoCreate now st n w fault incrFault).1.quota k = st.quota k)) ∧
    (1 ≤ st.quota ⟨n.bizID, n.channel⟩ →
      (∀ e, daoCreate now st.store (toEntity n) w fault = Except.error e →
        (repoCreate now st n w fault false).2 = Except.error e ∧
        (∀ k, (repoCreate now st n w fault false).1.quota k = st.quota k) ∧
        (repoCreate now st n w fault false).1.store = st.store) ∧
      (∀ store2 row,
        daoCreate now st.store (toEntity n) w fault = Except.ok (store2, row) →
        (repoCreate now st n w fault false).2 = Except.ok (toDomain row) ∧
        (toDomain row).version = 1 ∧
        (repoCreate now st n w fault false).1.store = store2 ∧
        (repoCreate now st n w fault false).1.quota ⟨n.bizID, n.channel⟩ =
          st.quota ⟨n.bizID, n.channel⟩ - 1 ∧
        (∀ k, k ≠ (⟨n.bizID, n.channel⟩ : QuotaKey) →
          (repoCreate now st n w fault false).1.quota k = st.quota k))) := by
  constructor
  · intro hv incrFault
    have hres : repoCreate now st n w fault incrFault =
        (⟨st.quota.set ⟨n.bizID, n.channel⟩ (st.quota ⟨n.bizID, n.channel⟩ - 1),
          st.store⟩, Except.error Err.noQuota) := by
      unfold repoCreate
      rw [decr_exhausted st.quota n.bizID n.channel hv]
    rw [hres]
    exact ⟨rfl, rfl, QuotaState.set_same _ _ _,
      fun k hk => QuotaState.set_other _ _ _ _ hk⟩
  · intro hv
    constructor
    · intro e he
      have hres : repoCreate now st n w fault false =
          ({ quota := Incr (st.quota.set ⟨n.bizID, n.channel⟩
                (st.quota ⟨n.bizID, n.channel⟩ - 1)) n.bizID n.channel
                defaultQuotaNumber,
             store := st.store }, Except.error e) := by
        unfold repoCreate
        rw [decr_ok st.quota n.bizID n.channel hv, he]
        simp
      rw [hres]
      refine ⟨rfl, ?_, rfl⟩
      intro k
      exact incr_after_decr st.quota ⟨n.bizID, n.channel⟩ hv k
    · intro store2 row he
      have hver : row.version = 1 := by
        revert he
        unfold daoCreate
        by_cases h1 : uniqueViolation st.store.notifications
            { toEntity n with ctime := now, utime := now, version := 1 }
        · rw [if_pos h1]; intro h; cases h
        · rw [if_neg h1]
          by_cases h2 : fault.insertFault
          · rw [if_pos h2]; intro h; cases h
          · rw [if_neg h2]
            by_cases h3 : w && fault.cbFault
            · rw [if_pos h3]; intro h; cases h
            · rw [if_neg h3]
              by_cases h4 : w
              · rw [if_pos h4]; intro h; cases h; rfl
              · rw [if_neg h4]; intro h; cases h; rfl
      have hres : repoCreate now st n w fault false =
          ({ quota := st.quota.set ⟨n.bizID, n.channel⟩
              (st.quota ⟨n.bizID, n.channel⟩ - 1),
             store := store2 }, Except.ok (toDomain row)) := by
        unfold repoCreate
        rw [decr_ok st.quota n.bizID n.channel hv, he]
      rw [hres]
      exact ⟨rfl, by simp [toDomain, hver], rfl, QuotaState.set_same _ _ _,
        fun k hk => QuotaState.set_other _ _ _ _ hk⟩

/-- Closed witness for create_quota_saga: with counters at 3 an injected
insert fault makes the create return the storage error with the counter
restored to 3; with counters at 0 the create aborts with the quota error. -/
theorem create_quota_saga_witness :
    (repoCreate 5 stSample nSample false ⟨true, false⟩ false).2 =
      Except.error Err.storage ∧
    (repoCreate 5 stSample nSample false ⟨true, false⟩ false).1.quota
      ⟨1, "SMS"⟩ = 3 ∧
    (repoCreate 5 stPoor nSample false DBFault.none false).2 =
      Except.error Err.noQuota := by
  have h := ((create_quota_saga 5 stSample nSample false ⟨true, false⟩).2
    (by decide)).1 Err.storage rfl
  have h0 := ((create_quota_saga 5 stPoor nSample false DBFault.none).1
    (by decide)) false
  exact ⟨h.1, (h.2.1 ⟨1, "SMS"⟩).trans (by decide), h0.1⟩

/-- C3: CASStatus touches exactly the rows whose id and version both match
the caller-supplied values, raising their stored version by exactly 1 and
leaving every other row unchanged; zero matches yield the version-mismatch
error; creation always persists Version = 1; the unconditional UpdateStatus
also raises version by exactly 1 on the rows it touches. -/
theorem casStatus_version_guard (now : Int) (st : Store) (n : NotificationRow) :
    ((∀ r ∈ st.notifications, ¬(r.id = n.id ∧ r.version = n.version)) →
      casStatus now st n = Except.error Err.versionMismatch) ∧
    ((∃ r ∈ st.notifications, r.id = n.id ∧ r.version = n.version) →
      ∃ st2, casStatus now st n = Except.ok st2 ∧
        st2.callbackLogs = st.callbackLogs ∧
        st2.notifications.length = st.notifications.length ∧
        (∀ i (h : i < st.notifications.length)
            (h2 : i < st2.notifications.length),
          ((st.notifications.get ⟨i, h⟩).id = n.id ∧
              (st.notifications.get ⟨i, h⟩).version = n.version →
            st2.notifications.get ⟨i, h2⟩ =
              { st.notifications.get ⟨i, h⟩ with
                  status := n.status,
                  version := (st.notifications.get ⟨i, h⟩).version + 1,
                  utime := now }) ∧
          (¬((st.notifications.get ⟨i, h⟩).id = n.id ∧
              (st.notifications.get ⟨i, h⟩).version = n.version) →
            st2.notifications.get ⟨i, h2⟩ = st.notifications.get ⟨i, h⟩))) ∧
    (∀ stx data w fault store2 row,
      daoCreate now stx data w fault = Except.ok (store2, row) →
      row.version = 1) ∧
    (∀ stx (m : NotificationRow) i (h : i < stx.notifications.length)
        (h2 : i < (updateStatus now stx m).notifications.length),
      ((stx.notifications.get ⟨i, h⟩).id = m.id →
        (updateStatus now stx m).notifications.get ⟨i, h2⟩ =
          { stx.notifications.get ⟨i, h⟩ with
              status := m.status,
              version := (stx.notifications.get ⟨i, h⟩).version + 1,
              utime := now }) ∧
      ((stx.notifications.get ⟨i, h⟩).id ≠ m.id →
        (updateStatus now stx m).notifications.get ⟨i, h2⟩ =
          stx.notifications.get ⟨i, h⟩)) := by
  refine ⟨?_, ?_, ?_, ?_⟩
  · intro hnone
    have hfil : st.notifications.filter
        (fun r => r.id = n.id && r.version = n.version) = [] := by
      rw [List.filter_eq_nil_iff]
      intro r hr
      simp only [Bool.and_eq_true, decide_eq_true_eq]
      exact hnone r hr
    simp [casStatus, hfil]
  · intro hex
    obtain ⟨r, hr, hid, hver⟩ := hex
    have hmem : r ∈ st.notifications.filter
        (fun r2 => r2.id = n.id && r2.version = n.version) :=
      List.mem_filter.mpr ⟨hr, by simp [hid, hver]⟩
    have hpos : 0 < (st.notifications.filter
        (fun r2 => r2.id = n.id && r2.version = n.version)).length :=
      List.length_pos.mpr (List.ne_nil_of_mem hmem)
    refine ⟨⟨st.notifications.map (fun r2 =>
        if r2.id = n.id && r2.version = n.version then
          { r2 with status := n.status, version := r2.version + 1, utime := now }
        else r2), st.callbackLogs⟩, ?_, rfl, by simp, ?_⟩
    · simp only [casStatus]
      rw [if_neg (by omega)]
    · intro i h h2
      simp only [List.get_eq_getElem]
      constructor
      · intro hm
        simp only [List.getElem_map]
        rw [if_pos (by simp only [Bool.and_eq_true, decide_eq_true_eq]; exact hm)]
      · intro hm
        simp only [List.getElem_map]
        rw [if_neg (by simp only [Bool.and_eq_true, decide_eq_true_eq]; exact hm)]
  · intro stx data w fault store2 row he
    revert he
    unfold daoCreate
    by_cases h1 : uniqueViolation stx.notifications
        { data with ctime := now, utime := now, version := 1 }
    · rw [if_pos h1]; intro h; cases h
    · rw [if_neg h1]
      by_cases h2 : fault.insertFault
      · rw [if_pos h2]; intro h; cases h
      · rw [if_neg h2]
        by_cases h3 : w && fault.cbFault
        · rw [if_pos h3]; intro h; cases h
        · rw [if_neg h3]
          by_cases h4 : w
          · rw [if_pos h4]; intro h; cases h; rfl
          · rw [if_neg h4]; intro h; cases h; rfl
  · intro stx m i h h2
    simp only [List.get_eq_getElem]
    constructor
    · intro hm
      simp only [updateStatus, List.getElem_map]
      rw [if_pos hm]
    · intro hm
      simp only [updateStatus, List.getElem_map]
      rw [if_neg hm]

/-- Closed witness for casStatus_version_guard: on a one-row store at
version 1, a CAS with the matching version succeeds and stores version 2,
while a CAS with a stale version reports the mismatch error. -/
theorem casStatus_version_guard_witness :
    casStatus 7 ⟨[{ toEntity nSample with version := 1 }], []⟩
        { toEntity nSample with version := 1, status := sendStatusSucceeded } =
      Except.ok ⟨[{ toEntity nSample with
          version := 2,
          status := sendStatusSucceeded,
          utime := 7 }], []⟩ ∧
    casStatus 7 ⟨[{ toEntity nSample with version := 2 }], []⟩
        { toEntity nSample with version := 1, status := sendStatusSucceeded } =
      Except.error Err.versionMismatch := by
  constructor
  · rfl
  · exact (casStatus_version_guard 7
      ⟨[{ toEntity nSample with version := 2 }], []⟩
      { toEntity nSample with version := 1, status := sendStatusSucceeded }).1
      (by
        intro r hr
        have : r = { toEntity nSample with version := 2 } := by simpa using hr
        rw [this]
        decide)

/-- C4 counterexample: a row in the terminal state SUCCEEDED at version 3 is
moved to PENDING by a CASStatus supplying the matching version 3 — the
attempt does not fail the CAS guard and the row is changed; the
unconditional UpdateStatus moves it out of the terminal state as well. -/
theorem terminal_cas_escape_cex :
    casStatus 9
        ⟨[{ toEntity nSample with version := 3, status := sendStatusSucceeded }], []⟩
        { toEntity nSample with version := 3, status := sendStatusPending } =
      Except.ok
        ⟨[{ toEntity nSample with
            version := 4,
            status := sendStatusPending,
            utime := 9 }], []⟩ ∧
    updateStatus 9
        ⟨[{ toEntity nSample with version := 3, status := sendStatusSucceeded }], []⟩
        { toEntity nSample with version := 7, status := sendStatusPending } =
      ⟨[{ toEntity nSample with
          version := 4,
          status := sendStatusPending,
          utime := 9 }], []⟩ := ⟨rfl, rfl⟩

/-- C4 (amended): the CAS guard checks only id and expected version, never
the current status, so a transition attempt out of a terminal state fails
the guard and leaves the row unchanged exactly when the supplied version is
stale; with the matching version the attempt succeeds and moves the row out
of the terminal state, and the unconditional UpdateStatus moves it out
regardless of any version. -/
theorem terminal_cas_guard_amended (now : Int) (r n : NotificationRow)
    (hterm : r.status = sendStatusSucceeded ∨ r.status = sendStatusFailed ∨
      r.status = sendStatusCanceled)
    (hid : n.id = r.id) :
    (n.version ≠ r.version →
      casStatus now ⟨[r], []⟩ n = Except.error Err.versionMismatch) ∧
    (n.version = r.version →
      casStatus now ⟨[r], []⟩ n =
        Except.ok ⟨[{ r with
          status := n.status,
          version := r.version + 1,
          utime := now }], []⟩) ∧
    (updateStatus now ⟨[r], []⟩ n =
      ⟨[{ r with
          status := n.status,
          version := r.version + 1,
          utime := now }], []⟩) := by
  refine ⟨?_, ?_, ?_⟩
  · intro hv
    have hrv : ¬r.version = n.version := fun h => hv h.symm
    have hfil : List.filter (fun r2 => r2.id = n.id && r2.version = n.version) [r] = [] := by
      simp [hid, hrv]
    simp [casStatus, hfil]
  · intro hv
    have hcond : ((r.id = n.id && r.version = n.version) : Bool) = true := by
      simp [hid, hv]
    simp only [casStatus, List.filter_cons, List.filter_nil, hcond, if_true,
      List.length_cons, List.length_nil, List.map_cons, List.map_nil]
    rw [if_neg (by omega)]
  · simp [updateStatus, hid]

/-- Closed witness for terminal_cas_guard_amended: on a SUCCEEDED row at
version 3, a CAS supplying stale version 2 reports the mismatch error, and
UpdateStatus with any version moves the row to PENDING at version 4. -/
theorem terminal_cas_guard_amended_witness :
    casStatus 9
        ⟨[{ toEntity nSample with version := 3, status := sendStatusSucceeded }], []⟩
        { toEntity nSample with version := 2, status := sendStatusPending } =
      Except.error Err.versionMismatch ∧
    updateStatus 9
        ⟨[{ toEntity nSample with version := 3, status := sendStatusSucceeded }], []⟩
        { toEntity nSample with version := 2, status := sendStatusPending } =
      ⟨[{ toEntity nSample with
          version := 4,
          status := sendStatusPending,
          utime := 9 }], []⟩ := by
  have h := terminal_cas_guard_amended 9
    { toEntity nSample with version := 3, status := sendStatusSucceeded }
    { toEntity nSample with version := 2, status := sendStatusPending }
    (Or.inl rfl) rfl
  exact ⟨h.1 (by decide), (h.2.2).trans (by decide)⟩

/-- C5 counterexample: with the DAO mark-failed update succeeding (the
primary effect) and the compensating quota Incr failing, MarkFailed returns
the refund error to its caller rather than logging and swallowing it. -/
theorem markFailed_refund_propagates_cex :
    (repoMarkFailed 3 stSample nSample false true).2 = some Err.evalFailed := rfl

/-- C5 (amended): refund failures are logged and swallowed by
BatchUpdateStatusSucceededOrFailed (which still returns success), by a
failed batch create and by a failed single create (which still return the
original persistence error) — but MarkFailed is the exception: it returns
its quota-refund Incr failure to the caller. -/
theorem refund_swallow_amended (now : Int) (st : RepoState) :
    (∀ succ failed : List Notification,
      (repoBatchUpdateStatusSucceededOrFailed now st succ failed false true).2 =
        none) ∧
    (∀ (ns : List Notification) (w : Bool) (fault : DBFault) (e : Err),
      ¬ns.isEmpty = true →
      (MutiDecr st.quota (getItems ns)).2 = none →
      daoBatchCreate now st.store (ns.map toEntity) w fault = Except.error e →
      (repoBatchCreate now st ns w fault true).2 = Except.error e) ∧
    (∀ (n : Notification) (w : Bool) (fault : DBFault) (e : Err),
      1 ≤ st.quota ⟨n.bizID, n.channel⟩ →
      daoCreate now st.store (toEntity n) w fault = Except.error e →
      (repoCreate now st n w fault true).2 = Except.error e) ∧
    (∀ n : Notification,
      (repoMarkFailed now st n false true).2 = some Err.evalFailed) := by
  refine ⟨?_, ?_, ?_, ?_⟩
  · intro succ failed
    unfold repoBatchUpdateStatusSucceededOrFailed daoBatchUpdateStatusSucceededOrFailed
    by_cases h : (succ.map toEntity).isEmpty && (failed.map toEntity).isEmpty
    · simp [h]
    · simp [h]
  · intro ns w fault e hne hdecr hdao
    unfold repoBatchCreate
    rw [if_neg hne]
    rcases hmd : MutiDecr st.quota (getItems ns) with ⟨q1, e1⟩
    rw [hmd] at hdecr
    simp only at hdecr
    subst hdecr
    simp only [hdao]
  · intro n w fault e hq hdao
    unfold repoCreate
    rw [decr_ok st.quota n.bizID n.channel hq, hdao]
  · intro n
    rfl

/-- Closed witness for refund_swallow_amended: at counters 3 a batch status
update with a failing refund still returns success; a batch create and a
single create with injected insert faults and failing refunds still return
the storage error; MarkFailed with a failing refund returns the refund
error. -/
theorem refund_swallow_amended_witness :
    (repoBatchUpdateStatusSucceededOrFailed 3 stSample [nSample] [nSample]
        false true).2 = none ∧
    (repoBatchCreate 3 stSample [nSample] false ⟨true, false⟩ true).2 =
      Except.error Err.storage ∧
    (repoCreate 3 stSample nSample false ⟨true, false⟩ true).2 =
      Except.error Err.storage ∧
    (repoMarkFailed 3 stSample nSample false true).2 = some Err.evalFailed := by
  have h := refund_swallow_amended 3 stSample
  exact ⟨h.1 [nSample] [nSample],
    h.2.1 [nSample] false ⟨true, false⟩ Err.storage (by decide) rfl rfl,
    h.2.2.1 nSample false ⟨true, false⟩ Err.storage (by decide) rfl,
    h.2.2.2 nSample⟩

theorem daoCreate_duplicate (now : Int) (st : Store) (data : NotificationRow)
    (w : Bool) (fault : DBFault)
    (hv : uniqueViolation st.notifications
      { data with ctime := now, utime := now, version := 1 } = true) :
    daoCreate now st data w fault = Except.error Err.duplicate := by
  unfold daoCreate
  rw [if_pos hv]

theorem daoCreate_ok_of_fresh (now : Int) (st : Store) (data : NotificationRow)
    (w : Bool)
    (hnv : uniqueViolation st.notifications
      { data with ctime := now, utime := now, version := 1 } = false) :
    ∃ store2, daoCreate now st data w DBFault.none =
      Except.ok (store2, { data with ctime := now, utime := now, version := 1 }) ∧
      store2.notifications =
        st.notifications ++ [{ data with ctime := now, utime := now, version := 1 }] := by
  unfold daoCreate
  rw [if_neg (by simp [hnv])]
  rw [if_neg (by simp [DBFault.none])]
  rw [if_neg (by simp [DBFault.none])]
  by_cases h4 : w = true
  · rw [if_pos h4]
    exact ⟨_, rfl, rfl⟩
  · rw [if_neg h4]
    exact ⟨_, rfl, rfl⟩

/-- C6: after a first successful create of n1, a second create with the same
(BizID, Key) is rejected as the duplicate-entry error (distinct from the
other Err constructors), the store is left unchanged with exactly one
persisted row for that (BizID, Key), and the quota unit decremented for the
rejected attempt is refunded (the second call is a net no-op on every
counter). -/
theorem duplicate_rejection (now1 now2 : Int) (st st1 : RepoState)
    (n1 n2 : Notification) (w1 w2 : Bool) (fault2 : DBFault)
    (res1 : Except Err Notification)
    (hbiz : n2.bizID = n1.bizID) (hkey : n2.key = n1.key)
    (hq1 : 1 ≤ st.quota ⟨n1.bizID, n1.channel⟩)
    (hfresh : ∀ r ∈ st.store.notifications,
      r.id ≠ n1.id ∧ ¬(r.bizID = n1.bizID ∧ r.key = n1.key))
    (hfirst : repoCreate now1 st n1 w1 DBFault.none false = (st1, res1))
    (hq2 : 1 ≤ st1.quota ⟨n2.bizID, n2.channel⟩) :
    res1 = Except.ok (toDomain
      { toEntity n1 with ctime := now1, utime := now1, version := 1 }) ∧
    (repoCreate now2 st1 n2 w2 fault2 false).2 = Except.error Err.duplicate ∧
    (repoCreate now2 st1 n2 w2 fault2 false).1.store = st1.store ∧
    (∀ k, (repoCreate now2 st1 n2 w2 fault2 false).1.quota k = st1.quota k) ∧
    (st1.store.notifications.filter
      (fun r => r.bizID = n1.bizID && r.key = n1.key)).length = 1 := by
  have hnv : uniqueViolation st.store.notifications
      { toEntity n1 with ctime := now1, utime := now1, version := 1 } = false := by
    unfold uniqueViolation
    rw [List.any_eq_false]
    intro r hr
    simp only [toEntity, Bool.or_eq_true, Bool.and_eq_true, decide_eq_true_eq]
    push_neg
    exact ⟨(hfresh r hr).1, fun hb hk => (hfresh r hr).2 ⟨hb, hk⟩⟩
  obtain ⟨store2, hdao1, hnot⟩ :=
    daoCreate_ok_of_fresh now1 st.store (toEntity n1) w1 hnv
  have hfirst2 : repoCreate now1 st n1 w1 DBFault.none false =
      (⟨st.quota.set ⟨n1.bizID, n1.channel⟩
          (st.quota ⟨n1.bizID, n1.channel⟩ - 1), store2⟩,
        Except.ok (toDomain
          { toEntity n1 with ctime := now1, utime := now1, version := 1 })) := by
    unfold repoCreate
    rw [decr_ok st.quota n1.bizID n1.channel hq1, hdao1]
  rw [hfirst2] at hfirst
  rw [Prod.mk.injEq] at hfirst
  obtain ⟨hst1, hres1⟩ := hfirst
  subst hst1
  subst hres1
  have hv2 : uniqueViolation store2.notifications
      { toEntity n2 with ctime := now2, utime := now2, version := 1 } = true := by
    unfold uniqueViolation
    rw [List.any_eq_true]
    refine ⟨{ toEntity n1 with ctime := now1, utime := now1, version := 1 },
      by rw [hnot]; exact List.mem_append_right _ (List.mem_cons_self _ _), ?_⟩
    simp [toEntity, hbiz, hkey]
  have hsecond : repoCreate now2
      (⟨st.quota.set ⟨n1.bizID, n1.channel⟩
          (st.quota ⟨n1.bizID, n1.channel⟩ - 1), store2⟩ : RepoState)
      n2 w2 fault2 false =
      (⟨Incr ((st.quota.set ⟨n1.bizID, n1.channel⟩
            (st.quota ⟨n1.bizID, n1.channel⟩ - 1)).set ⟨n2.bizID, n2.channel⟩
          ((st.quota.set ⟨n1.bizID, n1.channel⟩
            (st.quota ⟨n1.bizID, n1.channel⟩ - 1)) ⟨n2.bizID, n2.channel⟩ - 1))
          n2.bizID n2.channel defaultQuotaNumber, store2⟩,
        Except.error Err.duplicate) := by
    unfold repoCreate
    rw [decr_ok _ n2.bizID n2.channel hq2,
      daoCreate_duplicate now2 store2 (toEntity n2) w2 fault2 hv2]
    rfl
  refine ⟨rfl, ?_, ?_, ?_, ?_⟩
  · rw [hsecond]
  · rw [hsecond]
  · intro k
    rw [hsecond]
    exact incr_after_decr _ ⟨n2.bizID, n2.channel⟩ hq2 k
  · rw [hnot, List.filter_append]
    have h1 : st.store.notifications.filter
        (fun r => r.bizID = n1.bizID && r.key = n1.key) = [] := by
      rw [List.filter_eq_nil_iff]
      intro r hr
      simp only [Bool.and_eq_true, decide_eq_true_eq]
      exact (hfresh r hr).2
    have h2 : List.filter (fun r => r.bizID = n1.bizID && r.key = n1.key)
        [{ toEntity n1 with ctime := now1, utime := now1, version := 1 }] =
        [{ toEntity n1 with ctime := now1, utime := now1, version := 1 }] := by
      simp [toEntity]
    rw [h1, h2]
    rfl

/-- Closed witness for duplicate_rejection: creating nSample, then a second
notification with a fresh id but the same (BizID, Key), reports duplicate
and leaves the counter at 2 (the second call's decrement fully refunded). -/
theorem duplicate_rejection_witness :
    (repoCreate 6 (repoCreate 5 stSample nSample false DBFault.none false).1
        { nSample with id := 11 } false DBFault.none false).2 =
      Except.error Err.duplicate ∧
    (repoCreate 6 (repoCreate 5 stSample nSample false DBFault.none false).1
        { nSample with id := 11 } false DBFault.none false).1.quota
      ⟨1, "SMS"⟩ = 2 := by
  have h := duplicate_rejection 5 6 stSample
    (repoCreate 5 stSample nSample false DBFault.none false).1
    nSample { nSample with id := 11 } false false DBFault.none
    (repoCreate 5 stSample nSample false DBFault.none false).2
    rfl rfl (by decide)
    (by intro r hr; exact absurd hr (List.not_mem_nil r))
    rfl (by decide)
  exact ⟨h.2.1, (h.2.2.2.1 ⟨1, "SMS"⟩).trans (by decide)⟩

/-- C7 counterexample: the code's validation disagrees with the claim at the
boundary: SCHEDULED and DEADLINE with the time equal to the validation
instant pass validation although the claim's "strictly in the future"
requires failure, and a TIME_WINDOW whose start is the zero time is rejected
although its start ≤ end, which the claim says suffices. -/
theorem strategy_validation_cex :
    claimedMalformed 1000 ⟨strategyScheduled, 0, 1000, 0, 0, 0⟩ = true ∧
    strategyValidate 1000 ⟨strategyScheduled, 0, 1000, 0, 0, 0⟩ = none ∧
    claimedMalformed 1000 ⟨strategyDeadline, 0, 0, 0, 0, 1000⟩ = true ∧
    strategyValidate 1000 ⟨strategyDeadline, 0, 0, 0, 0, 1000⟩ = none ∧
    claimedMalformed 0 ⟨strategyTimeWindow, 0, 0, goZeroTime, 5, 0⟩ = false ∧
    strategyValidate 0 ⟨strategyTimeWindow, 0, 0, goZeroTime, 5, 0⟩ =
      some Err.invalidParameter := by decide

/-- C7 (amended): validation at instant T fails fast — a validation failure
leaves the state untouched, before any quota or persistence action — and
fails exactly when DELAYED has delay ≤ 0, SCHEDULED has a zero time or a
time before T, TIME_WINDOW has a zero start or start > end, or DEADLINE has
a zero time or a time before T; the computed windows are IMMEDIATE →
[T, T+30m], DELAYED(d) → [T, T+d], SCHEDULED(t) → [t-3s, t],
TIME_WINDOW(s, e) → [s, e], DEADLINE(t) → [T, t]. -/
theorem strategy_window_amended (now : Int) (e : SendStrategyConfig)
    (st : RepoState) (n : Notification) (fault : DBFault) (incrFault : Bool) :
    ((strategyValidate now e).isSome ↔
      (e.type = strategyDelayed ∧ e.delay ≤ 0) ∨
      (e.type = strategyScheduled ∧
        (e.scheduledTime = goZeroTime ∨ e.scheduledTime < now)) ∨
      (e.type = strategyTimeWindow ∧
        (e.startTime = goZeroTime ∨ e.startTime > e.endTime)) ∨
      (e.type = strategyDeadline ∧
        (e.deadlineTime = goZeroTime ∨ e.deadlineTime < now))) ∧
    (e.type = strategyImmediate →
      SendTimeWindow now e = (now, now + defaultEndDuration)) ∧
    (e.type = strategyDelayed → SendTimeWindow now e = (now, now + e.delay)) ∧
    (e.type = strategyScheduled → SendTimeWindow now e =
      (e.scheduledTime - scheduledTimeTolerance, e.scheduledTime)) ∧
    (e.type = strategyTimeWindow →
      SendTimeWindow now e = (e.startTime, e.endTime)) ∧
    (e.type = strategyDeadline → SendTimeWindow now e = (now, e.deadlineTime)) ∧
    ((notifValidate now n).isSome →
      txPrepare now st n fault incrFault = (st, some GrpcErr.invalidArgument)) := by
  refine ⟨?_, ?_, ?_, ?_, ?_, ?_, ?_⟩
  · unfold strategyValidate
    split_ifs with h1 h2 h3 h4 h5 h6 h7 h8 h9 <;>
      simp_all [strategyImmediate, strategyDelayed, strategyScheduled,
        strategyTimeWindow, strategyDeadline]
  · intro h
    simp [SendTimeWindow, h, strategyImmediate]
  · intro h
    simp [SendTimeWindow, h, strategyImmediate, strategyDelayed]
  · intro h
    simp [SendTimeWindow, h, strategyImmediate, strategyDelayed,
      strategyDeadline, strategyTimeWindow, strategyScheduled]
  · intro h
    simp [SendTimeWindow, h, strategyImmediate, strategyDelayed,
      strategyDeadline, strategyTimeWindow]
  · intro h
    simp [SendTimeWindow, h, strategyImmediate, strategyDelayed,
      strategyDeadline]
  · intro h
    obtain ⟨e2, he⟩ := Option.isSome_iff_exists.mp h
    unfold txPrepare
    rw [he]

/-- Closed witness for strategy_window_amended: the IMMEDIATE window at
T=1000, a DELAYED strategy with zero delay failing validation, and a
notification with an empty key aborting TxPrepare with InvalidArgument and
an untouched state. -/
theorem strategy_window_amended_witness :
    SendTimeWindow 1000 ⟨strategyImmediate, 0, 0, 0, 0, 0⟩ = (1000, 1801000) ∧
    (strategyValidate 1000 ⟨strategyDelayed, 0, 0, 0, 0, 0⟩).isSome = true ∧
    txPrepare 1000 stSample { nSample with key := "" } DBFault.none false =
      (stSample, some GrpcErr.invalidArgument) := by
  have h := strategy_window_amended 1000 ⟨strategyImmediate, 0, 0, 0, 0, 0⟩
    stSample { nSample with key := "" } DBFault.none false
  have h2 := strategy_window_amended 1000 ⟨strategyDelayed, 0, 0, 0, 0, 0⟩
    stSample { nSample with key := "" } DBFault.none false
  exact ⟨(h.2.1 rfl).trans (by decide),
    h2.1.mpr (Or.inl ⟨rfl, le_refl 0⟩),
    h.2.2.2.2.2.2 (by decide)⟩

theorem find?_map_invariant {α : Type} (f : α → α) (p : α → Bool) (l : List α)
    (hf : ∀ x, p (f x) = p x) : (l.map f).find? p = (l.find? p).map f := by
  induction l with
  | nil => rfl
  | cons x rest ih =>
    by_cases hx : p x = true
    · rw [List.map_cons, List.find?_cons_of_pos _ (by rw [hf]; exact hx),
        List.find?_cons_of_pos _ hx]
      rfl
    · have hx2 : ¬ p (f x) = true := by rw [hf]; exact hx
      rw [List.map_cons, List.find?_cons_of_neg _ hx2,
        List.find?_cons_of_neg _ hx, ih]

theorem daoGetByKey_some (st : Store) (bizID : Int) (key : String)
    (r : NotificationRow) (h : daoGetByKey st bizID key = Except.ok r) :
    st.notifications.find? (fun r2 => r2.bizID = bizID && r2.key = key) =
      some r := by
  revert h
  unfold daoGetByKey
  cases hfind : st.notifications.find? (fun r2 => r2.bizID = bizID && r2.key = key) with
  | none => intro h; cases h
  | some r0 => intro h; cases h; rfl

theorem daoGetByKey_updateStatus (now : Int) (st : Store)
    (m : NotificationRow) (bizID : Int) (key : String) (r : NotificationRow)
    (h : daoGetByKey st bizID key = Except.ok r) :
    daoGetByKey (updateStatus now st m) bizID key =
      Except.ok (if r.id = m.id then
        { r with status := m.status, version := r.version + 1, utime := now }
      else r) := by
  have hf := daoGetByKey_some st bizID key r h
  have hpres : ∀ x : NotificationRow,
      ((fun r2 => r2.bizID = bizID && r2.key = key) : NotificationRow → Bool)
        (if x.id = m.id then
          { x with status := m.status, version := x.version + 1, utime := now }
        else x) =
      (fun r2 => r2.bizID = bizID && r2.key = key) x := by
    intro x
    by_cases hx : x.id = m.id <;> simp [hx]
  have hmap := find?_map_invariant
    (fun x : NotificationRow =>
      if x.id = m.id then
        { x with status := m.status, version := x.version + 1, utime := now }
      else x)
    (fun r2 : NotificationRow => r2.bizID = bizID && r2.key = key)
    st.notifications hpres
  unfold daoGetByKey updateStatus
  simp only [hmap, hf]
  rfl

/-- C8: TxCommit on a (BizID, Key) whose notification is not in PREPARE
fails with the precondition error and leaves the state unchanged, and
TxCancel applies the same check; on a PREPARE notification TxCommit
transitions it to PENDING (TxCancel to CANCELED) via the unconditional
UpdateStatus, after which a second TxCommit — or a TxCommit after TxCancel —
fails with the precondition error. -/
theorem tx_commit_cancel_protocol (now1 now2 : Int) (st : RepoState)
    (bizID : Int) (key : String) (hkey : key ≠ "") (hbiz : bizID ≠ 0) :
    (∀ r, daoGetByKey st.store bizID key = Except.ok r →
      r.status ≠ sendStatusPrepare →
      txCommit now1 st bizID key = (st, some GrpcErr.failedPrecondition) ∧
      txCancel now1 st bizID key = (st, some GrpcErr.failedPrecondition)) ∧
    (∀ r, daoGetByKey st.store bizID key = Except.ok r →
      r.status = sendStatusPrepare →
      txCommit now1 st bizID key =
        (repoUpdateStatus now1 st
          { toDomain r with status := sendStatusPending }, none) ∧
      txCancel now1 st bizID key =
        (repoUpdateStatus now1 st
          { toDomain r with status := sendStatusCanceled }, none) ∧
      (txCommit now2 (txCommit now1 st bizID key).1 bizID key).2 =
        some GrpcErr.failedPrecondition ∧
      (txCommit now2 (txCancel now1 st bizID key).1 bizID key).2 =
        some GrpcErr.failedPrecondition) := by
  constructor
  · intro r hr hst
    have hrg : repoGetByKey st bizID key = Except.ok (toDomain r) := by
      unfold repoGetByKey
      rw [hr]
    have hst2 : (toDomain r).status ≠ sendStatusPrepare := hst
    constructor
    · unfold txCommit
      rw [if_neg hkey, if_neg hbiz]
      simp only [hrg]
      rw [if_pos hst2]
    · unfold txCancel
      rw [if_neg hkey, if_neg hbiz]
      simp only [hrg]
      rw [if_pos hst2]
  · intro r hr hst
    have hrg : repoGetByKey st bizID key = Except.ok (toDomain r) := by
      unfold repoGetByKey
      rw [hr]
    have hnot : ¬((toDomain r).status ≠ sendStatusPrepare) := fun hc => hc hst
    have hcommit : txCommit now1 st bizID key =
        (repoUpdateStatus now1 st
          { toDomain r with status := sendStatusPending }, none) := by
      unfold txCommit
      rw [if_neg hkey, if_neg hbiz]
      simp only [hrg]
      rw [if_neg hnot]
    have hcancel : txCancel now1 st bizID key =
        (repoUpdateStatus now1 st
          { toDomain r with status := sendStatusCanceled }, none) := by
      unfold txCancel
      rw [if_neg hkey, if_neg hbiz]
      simp only [hrg]
      rw [if_neg hnot]
    refine ⟨hcommit, hcancel, ?_, ?_⟩
    · rw [hcommit]
      have hg2 := daoGetByKey_updateStatus now1 st.store
        (toEntity { toDomain r with status := sendStatusPending }) bizID key r hr
      rw [if_pos (show r.id =
        (toEntity { toDomain r with status := sendStatusPending }).id from rfl)] at hg2
      have hrg2 : repoGetByKey
          (repoUpdateStatus now1 st
            { toDomain r with status := sendStatusPending }) bizID key =
          Except.ok (toDomain { r with
            status := sendStatusPending,
            version := r.version + 1,
            utime := now1 }) := by
        unfold repoGetByKey repoUpdateStatus
        simp only [hg2]
        rfl
      unfold txCommit
      rw [if_neg hkey, if_neg hbiz]
      simp only [hrg2]
      rw [if_pos (show (toDomain { r with
        status := sendStatusPending,
        version := r.version + 1,
        utime := now1 }).status ≠ sendStatusPrepare from
        fun hc => absurd (show sendStatusPending = sendStatusPrepare from hc)
          (by decide))]
    · rw [hcancel]
      have hg2 := daoGetByKey_updateStatus now1 st.store
        (toEntity { toDomain r with status := sendStatusCanceled }) bizID key r hr
      rw [if_pos (show r.id =
        (toEntity { toDomain r with status := sendStatusCanceled }).id from rfl)] at hg2
      have hrg2 : repoGetByKey
          (repoUpdateStatus now1 st
            { toDomain r with status := sendStatusCanceled }) bizID key =
          Except.ok (toDomain { r with
            status := sendStatusCanceled,
            version := r.version + 1,
            utime := now1 }) := by
        unfold repoGetByKey repoUpdateStatus
        simp only [hg2]
        rfl
      unfold txCommit
      rw [if_neg hkey, if_neg hbiz]
      simp only [hrg2]
      rw [if_pos (show (toDomain { r with
        status := sendStatusCanceled,
        version := r.version + 1,
        utime := now1 }).status ≠ sendStatusPrepare from
        fun hc => absurd (show sendStatusCanceled = sendStatusPrepare from hc)
          (by decide))]

/-- Closed witness for tx_commit_cancel_protocol: on a one-row store whose
notification is in PREPARE, TxCommit succeeds, a second TxCommit fails with
the precondition error, and TxCommit after TxCancel fails likewise. -/
theorem tx_commit_cancel_protocol_witness :
    (txCommit 5 ⟨qSample,
        ⟨[{ toEntity nSample with status := sendStatusPrepare }], []⟩⟩
      1 "k1").2 = none ∧
    (txCommit 6 (txCommit 5 ⟨qSample,
        ⟨[{ toEntity nSample with status := sendStatusPrepare }], []⟩⟩
      1 "k1").1 1 "k1").2 = some GrpcErr.failedPrecondition ∧
    (txCommit 6 (txCancel 5 ⟨qSample,
        ⟨[{ toEntity nSample with status := sendStatusPrepare }], []⟩⟩
      1 "k1").1 1 "k1").2 = some GrpcErr.failedPrecondition := by
  have h := (tx_commit_cancel_protocol 5 6
    ⟨qSample, ⟨[{ toEntity nSample with status := sendStatusPrepare }], []⟩⟩
    1 "k1" (by decide) (by decide)).2
    { toEntity nSample with status := sendStatusPrepare } rfl rfl
  exact ⟨by rw [h.1], h.2.2.1, h.2.2.2⟩

end NotificationPlatform
